import Mathlib

/-!
Shallow embedding of the Villa Dashboard data pipeline (`main.py`):
the record loader (`load_data`), the sidebar filter mask, and the
aggregation views of the three tabs.  Monetary amounts and areas are
modelled as rationals; a pandas `NaN` cell is modelled as `none`.
-/

namespace VillaDashboard

/-- Fold a digit list into the natural number it denotes. -/
def digitsToNat (cs : List Char) : Nat :=
  cs.foldl (fun n c => n * 10 + (c.toNat - 48)) 0

/-- Split a character list at every occurrence of the separator `c`. -/
def splitOnChar (c : Char) : List Char → List (List Char)
  | [] => [[]]
  | x :: xs =>
    match splitOnChar c xs with
    | [] => [[]]
    | g :: gs => if x = c then [] :: g :: gs else (x :: g) :: gs

/-- Parse a non-empty all-digit character list into a natural number. -/
def parseNatChars (cs : List Char) : Option Nat :=
  if cs ≠ [] ∧ cs.all (·.isDigit) then some (digitsToNat cs) else none

/-- Embeds `.str.replace(',', '')`: remove every comma of the cell. -/
def stripCommas (s : String) : String :=
  String.mk (s.data.filter (· ≠ ','))

/-- Embeds `astype(float)` / `pd.to_numeric` on one cell: an integer part
with an optional fractional part after a single dot. -/
def parseFloatStr (s : String) : Option Rat :=
  match splitOnChar '.' s.data with
  | [i] => (parseNatChars i).map (fun n => (n : Rat))
  | [i, f] =>
    match parseNatChars i, parseNatChars f with
    | some n, some m => some ((n : Rat) + (m : Rat) / ((10 : Rat) ^ f.length))
    | _, _ => none
  | _ => none

/-- A calendar date as produced by `pd.to_datetime` (date component only;
the source data carries no time of day). -/
structure Date where
  year : Nat
  month : Nat
  day : Nat
deriving DecidableEq, Repr

/-- Numeric key giving the calendar order of dates (month ≤ 12 < 100 and
day ≤ 31 < 100 for every parsed date, so the key is order-faithful). -/
def Date.toNatKey (d : Date) : Nat :=
  d.year * 10000 + d.month * 100 + d.day

/-- Calendar comparison of two dates, as `.dt.date >= start_date` compares. -/
def Date.le (a b : Date) : Bool :=
  a.toNatKey ≤ b.toNatKey

/-- Two-digit zero padding, as `%m` in `strftime`. -/
def pad2 (n : Nat) : String :=
  if n < 10 then "0" ++ toString n else toString n

/-- Four-digit zero padding, as `%Y` in `strftime`. -/
def pad4 (n : Nat) : String :=
  if n < 10 then "000" ++ toString n
  else if n < 100 then "00" ++ toString n
  else if n < 1000 then "0" ++ toString n
  else toString n

/-- Embeds `strftime('%Y-%m')`, the derived `Year-Month` key (line 168). -/
def yearMonth (d : Date) : String :=
  pad4 d.year ++ "-" ++ pad2 d.month

/-- Lexicographic comparison of character lists by code point, the order
in which pandas sorts string group keys. -/
def charListLe : List Char → List Char → Bool
  | [], _ => true
  | _ :: _, [] => false
  | a :: as, b :: bs =>
    if a.toNat < b.toNat then true
    else if b.toNat < a.toNat then false
    else charListLe as bs

/-- Lexicographic string comparison by code point. -/
def strLe (a b : String) : Bool :=
  charListLe a.data b.data

/-- Embeds `pd.to_datetime(cell, dayfirst=True)` on a `d/m/y` cell: the
first component is the day and the second the month whenever that reading
is valid; otherwise `dateutil` falls back to the month-first reading. -/
def parseDateDayFirst (s : String) : Option Date :=
  match splitOnChar '/' s.data with
  | [ds, ms, ys] =>
    match parseNatChars ds, parseNatChars ms, parseNatChars ys with
    | some a, some b, some y =>
      if 1 ≤ b ∧ b ≤ 12 ∧ 1 ≤ a ∧ a ≤ 31 then some ⟨y, b, a⟩
      else if 1 ≤ a ∧ a ≤ 12 ∧ 1 ≤ b ∧ b ≤ 31 then some ⟨y, a, b⟩
      else none
    | _, _, _ => none
  | _ => none

/-- One raw CSV row as `pd.read_csv` hands it to the cleaning steps:
string cells for the columns the loader re-parses, `none` for an empty
cell (pandas `NaN`). -/
structure RawRow where
  unit_id : String
  project : String
  contract_date : String
  contract_amount : Option String
  area_m2 : Option String
  covered_area : Option Rat
  covered_veranda : Option Rat
  total_covered : Option Rat
  bedrooms : Option String
  market_segment : String
  latitude : Option Rat
  longitude : Option Rat
deriving DecidableEq, Repr

/-- One row of the canonical dataset produced by `load_data`.  A `none`
in `contract_amount` or `area_m2` models a pandas `NaN` value. -/
structure Row where
  unit_id : String
  project : String
  contract_date : Date
  contract_amount : Option Rat
  area_m2 : Option Rat
  covered_area : Rat
  covered_veranda : Rat
  total_covered : Rat
  bedrooms : Option String
  market_segment : String
  latitude : Option Rat
  longitude : Option Rat
  year_month : String
deriving DecidableEq, Repr

/-- Embeds line 161, `data['Contract Amount'].str.replace(',', '').astype(float)`,
on one cell: a `NaN` cell passes through the `.str` accessor and
`astype(float)` untouched, while a string that does not parse as a float
after comma-stripping raises, aborting the load. -/
def convertAmountCell : Option String → Except String (Option Rat)
  | none => .ok none
  | some s =>
    match parseFloatStr (stripCommas s) with
    | some v => .ok (some v)
    | none => .error "could not convert string to float"

/-- Embeds line 158, `pd.to_numeric(data['m²'].str.replace(',', ''), errors='coerce')`,
on one cell: unparseable residue coerces to `NaN`, never an error. -/
def coerceAreaCell : Option String → Option Rat
  | none => none
  | some s => parseFloatStr (stripCommas s)

/-- Clean one raw row as `load_data` (lines 148-170) cleans each column:
day-first date parsing (`errors='raise'`), soft `m²` coercion, hard
`Contract Amount` conversion, zero-fill of the covered-area columns, and
the derived `Year-Month` key. -/
def loadRow (rr : RawRow) : Except String Row :=
  match parseDateDayFirst rr.contract_date with
  | none => .error "could not parse contract date"
  | some d =>
    match convertAmountCell rr.contract_amount with
    | .error e => .error e
    | .ok amt =>
      .ok { unit_id := rr.unit_id
            project := rr.project
            contract_date := d
            contract_amount := amt
            area_m2 := coerceAreaCell rr.area_m2
            covered_area := rr.covered_area.getD 0
            covered_veranda := rr.covered_veranda.getD 0
            total_covered := rr.total_covered.getD 0
            bedrooms := rr.bedrooms
            market_segment := rr.market_segment
            latitude := rr.latitude
            longitude := rr.longitude
            year_month := yearMonth d }

/-- Clean every row.  The source converts column by column while this
pass goes row by row; it succeeds in one exactly when it succeeds in the
other, and both abort on the first bad required cell (when several cells
are bad only the reported message may differ). -/
def loadRows : List RawRow → Except String (List Row)
  | [] => .ok []
  | r :: rs =>
    match loadRow r with
    | .error e => .error e
    | .ok row =>
      match loadRows rs with
      | .error e => .error e
      | .ok rows => .ok (row :: rows)

/-- Embeds `load_data` over the whole table.  A `some` cell of
`contract_amount` is a string cell, so the column read by `pd.read_csv`
has object dtype as soon as one cell is a string; only a non-empty
column whose cells are all missing is an all-`NaN` `float64` column, on
which the `.str` accessor of line 161 itself raises, aborting the load
before any per-cell conversion. -/
def loadData (raws : List RawRow) : Except String (List Row) :=
  if raws ≠ [] ∧ ∀ rr ∈ raws, rr.contract_amount = none then
    .error "can only use .str accessor with string values"
  else loadRows raws

/-- The memo dictionary of `@st.cache_data`: the stored result for the
given raw input, if one is cached. -/
def cacheLookup (cache : List (List RawRow × Except String (List Row)))
    (raws : List RawRow) : Option (Except String (List Row)) :=
  match cache with
  | [] => none
  | e :: es => if e.1 = raws then some e.2 else cacheLookup es raws

/-- Embeds the `@st.cache_data` memo around `load_data`: a cache hit
returns the stored dataset without re-parsing, a miss recomputes. -/
def loadCached (cache : List (List RawRow × Except String (List Row)))
    (raws : List RawRow) : Except String (List Row) :=
  match cacheLookup cache raws with
  | some v => v
  | none => loadData raws

/-- A cache is valid when every stored entry is the result `load_data`
produced for its key. -/
def ValidCache (cache : List (List RawRow × Except String (List Row))) : Prop :=
  ∀ e ∈ cache, e.2 = loadData e.1

/-- The sidebar criteria (lines 176-210): date bounds from the two date
inputs, the `"All"`-or-exact selects, and the price slider bounds. -/
structure Criteria where
  start_date : Date
  end_date : Date
  project : String
  bedrooms : String
  price_min : Rat
  price_max : Rat
  market_segment : String
deriving DecidableEq, Repr

/-- Embeds the filter mask of lines 213-227: the always-on date and price
window, and the three selects that only constrain when not `"All"`.
A `NaN` amount compares `False` on both price bounds, as in pandas. -/
def rowMatches (c : Criteria) (r : Row) : Bool :=
  Date.le c.start_date r.contract_date &&
  Date.le r.contract_date c.end_date &&
  (match r.contract_amount with
   | some a => decide (c.price_min ≤ a)
   | none => false) &&
  (match r.contract_amount with
   | some a => decide (a ≤ c.price_max)
   | none => false) &&
  (c.project == "All" || r.project == c.project) &&
  (c.bedrooms == "All" || r.bedrooms == some c.bedrooms) &&
  (c.market_segment == "All" || r.market_segment == c.market_segment)

/-- Embeds `filtered_data = data[filter_conditions]` (line 229). -/
def filterRows (data : List Row) (c : Criteria) : List Row :=
  data.filter (rowMatches c)

/-- Embeds the defensive `m²` re-coercion of lines 232-240 on the
filtered copy: the column is already numeric after `load_data`, so the
numeric branch applies and `astype(float)` leaves every value unchanged. -/
def coerceAreas (rows : List Row) : List Row :=
  rows.map (fun r => { r with area_m2 := r.area_m2 })

/-- Embeds a skip-`NaN` column sum, as pandas `sum` aggregates. -/
def sumAmounts (g : List Row) : Rat :=
  (g.filterMap (·.contract_amount)).sum

/-- Embeds a skip-`NaN` column mean: `NaN` when no value remains. -/
def meanOpt (l : List (Option Rat)) : Option Rat :=
  let vs := l.filterMap id
  if vs.isEmpty then none else some (vs.sum / (vs.length : Rat))

/-- One output row of the monthly timeline (lines 253-256). -/
structure MonthlyRow where
  month : String
  total : Rat
  count : Nat
deriving DecidableEq, Repr

/-- Embeds `monthly_sales` (lines 253-256): group by `Year-Month`, sum
`Contract Amount`, count `Unit ID`, sorted ascending by month. -/
def monthlySales (rows : List Row) : List MonthlyRow :=
  (List.insertionSort (fun a b => strLe a b = true) (rows.map (·.year_month)).dedup).map
    (fun ym =>
      let g := rows.filter (fun r => r.year_month == ym)
      ⟨ym, sumAmounts g, g.length⟩)

/-- Embeds `filtered_data.dropna(subset=['m²'])` (line 291). -/
def validArea (rows : List Row) : List Row :=
  rows.filter (fun r => r.area_m2.isSome)

/-- Embeds `idxmax` on the `m²` column: the first row attaining the
maximum area (a later row replaces the best only when strictly larger). -/
def maxAreaRow (v : Row) : List Row → Row
  | [] => v
  | x :: xs => maxAreaRow (if v.area_m2.getD 0 < x.area_m2.getD 0 then x else v) xs

/-- Embeds `idxmin` on the `m²` column: the first row attaining the
minimum area. -/
def minAreaRow (v : Row) : List Row → Row
  | [] => v
  | x :: xs => minAreaRow (if x.area_m2.getD 0 < v.area_m2.getD 0 then x else v) xs

/-- Embeds the price-per-m² statistics block of lines 288-296: restrict to
rows with a non-missing `m²`, take the `idxmax` row, the `idxmin` row and
the mean of the column; the warning branches of lines 331-333 are the
`none` sentinel. -/
def priceExtremes (rows : List Row) : Option (Row × Row × Rat) :=
  if rows.isEmpty then none
  else
    match validArea rows with
    | [] => none
    | v :: vs =>
      some (maxAreaRow v vs, minAreaRow v vs,
        ((v :: vs).filterMap (·.area_m2)).sum / ((v :: vs).length : Rat))

/-- One output row of the per-project rollup (lines 342-350). -/
structure ProjRow where
  project : String
  totalSales : Rat
  avgPrice : Option Rat
  unitsSold : Nat
  avgSize : Rat
  pricePerArea : Option Rat
deriving DecidableEq, Repr

/-- Aggregate one project group as `project_sales` does: sum, mean and
non-null count of `Contract Amount`, mean of `Total Covered`, and
`Price per m² = Average Price / Average Size.replace(0, nan)`. -/
def mkProjRow (p : String) (g : List Row) : ProjRow :=
  let avgSize := (g.map (·.total_covered)).sum / (g.length : Rat)
  { project := p
    totalSales := sumAmounts g
    avgPrice := meanOpt (g.map (·.contract_amount))
    unitsSold := (g.filterMap (·.contract_amount)).length
    avgSize := avgSize
    pricePerArea :=
      if avgSize = 0 then none
      else (meanOpt (g.map (·.contract_amount))).map (· / avgSize) }

/-- Embeds `project_sales` (lines 342-350): group by `Project` (pandas
yields groups in ascending key order) and re-sort descending by
`Total Sales`. -/
def projectSales (rows : List Row) : List ProjRow :=
  let keys := List.insertionSort (fun a b => strLe a b = true) (rows.map (·.project)).dedup
  let tbl := keys.map (fun p => mkProjRow p (rows.filter (fun r => r.project == p)))
  List.insertionSort (fun a b => b.totalSales ≤ a.totalSales) tbl

/-- Embeds `monthly_price_m2` (lines 403-405): group by the month key and
take the skip-`NaN` mean of `m²`, in ascending month order. -/
def monthlyAvgArea (rows : List Row) : List (String × Option Rat) :=
  (List.insertionSort (fun a b => strLe a b = true) (rows.map (·.year_month)).dedup).map
    (fun ym => (ym, meanOpt ((rows.filter (fun r => r.year_month == ym)).map (·.area_m2))))

/-- One output row of the geographic rollup (lines 445-451); the cosmetic
marker-size column is presentation-only and not part of the data view. -/
structure GeoRow where
  project : String
  latitude : Rat
  longitude : Rat
  totalSales : Rat
  unitsSold : Nat
  avgArea : Option Rat
deriving DecidableEq, Repr

/-- Lexicographic order on the `(Project, Latitude, Longitude)` group key,
as pandas orders a multi-column groupby. -/
def geoKeyLe (a b : String × Rat × Rat) : Prop :=
  a.1 < b.1 ∨ (a.1 = b.1 ∧ (a.2.1 < b.2.1 ∨ (a.2.1 = b.2.1 ∧ a.2.2 ≤ b.2.2)))

instance : DecidableRel geoKeyLe := fun a b => by
  unfold geoKeyLe; infer_instance

/-- Embeds `project_locations` (lines 444-451) on the already
`dropna(subset=['Latitude','Longitude'])`-filtered frame: group by
`(Project, Latitude, Longitude)`, sum and count `Contract Amount`, mean
of `m²`. -/
def geoRollup (md : List Row) : List GeoRow :=
  let keys := List.insertionSort geoKeyLe
    ((md.map (fun r => (r.project, r.latitude.getD 0, r.longitude.getD 0))).dedup)
  keys.map (fun k =>
    let g := md.filter (fun r =>
      r.project == k.1 && r.latitude == some k.2.1 && r.longitude == some k.2.2)
    { project := k.1
      latitude := k.2.1
      longitude := k.2.2
      totalSales := sumAmounts g
      unitsSold := (g.filterMap (·.contract_amount)).length
      avgArea := meanOpt (g.map (·.area_m2)) })

/-- Tab 1 (lines 249-256): the `st.warning` branch on an empty filtered
frame is the `none` sentinel, otherwise the monthly timeline. -/
def tab1Timeline (rows : List Row) : Option (List MonthlyRow) :=
  if rows.isEmpty then none else some (monthlySales rows)

/-- Tab 2 rollup (lines 338-350): warning sentinel on empty input. -/
def tab2Projects (rows : List Row) : Option (List ProjRow) :=
  if rows.isEmpty then none else some (projectSales rows)

/-- Tab 2 monthly price-per-m² chart (lines 403-405), inside the same
empty guard as the rollup. -/
def tab2MonthlyAvg (rows : List Row) : Option (List (String × Option Rat)) :=
  if rows.isEmpty then none else some (monthlyAvgArea rows)

/-- Tab 3 (lines 431-448): warning on an empty filtered frame, info
notice when no row has coordinates, otherwise the geographic rollup. -/
def tab3Geo (rows : List Row) : Option (List GeoRow) :=
  if rows.isEmpty then none
  else
    let md := rows.filter (fun r => r.latitude.isSome && r.longitude.isSome)
    if md.isEmpty then none else some (geoRollup md)

/-- All amounts of the dataset, skipping `NaN` as pandas min/max do. -/
def amounts (rows : List Row) : List Rat :=
  rows.filterMap (·.contract_amount)

/-- Minimum of a list of rationals (0 on the empty list, unreached: the
sidebar only runs on a loaded, non-empty dataset). -/
def listMinR : List Rat → Rat
  | [] => 0
  | x :: xs => xs.foldl min x

/-- Maximum of a list of rationals. -/
def listMaxR : List Rat → Rat
  | [] => 0
  | x :: xs => xs.foldl max x

/-- Embeds Python `int()` on a float: truncation toward zero. -/
def pyInt (q : Rat) : Int :=
  if 0 ≤ q then q.floor else -((-q).floor)

/-- Embeds lines 200-201: `min_price = int(data['Contract Amount'].min())`
and `max_price = int(data['Contract Amount'].max())`, the slider bounds. -/
def priceBounds (rows : List Row) : Int × Int :=
  (pyInt (listMinR (amounts rows)), pyInt (listMaxR (amounts rows)))

/-- Minimum contract date of the dataset (line 180). -/
def minDateOf : List Row → Date
  | [] => ⟨1970, 1, 1⟩
  | r :: rs => rs.foldl (fun d x => if Date.le x.contract_date d then x.contract_date else d) r.contract_date

/-- Maximum contract date of the dataset (line 182). -/
def maxDateOf : List Row → Date
  | [] => ⟨1970, 1, 1⟩
  | r :: rs => rs.foldl (fun d x => if Date.le d x.contract_date then x.contract_date else d) r.contract_date

/-- Embeds line 185: the default start date is the later of the dataset
minimum and 1 January 2022. -/
def defaultStartDate (rows : List Row) : Date :=
  if Date.le ⟨2022, 1, 1⟩ (minDateOf rows) then minDateOf rows else ⟨2022, 1, 1⟩

/-- The criteria the sidebar holds before the user touches any control:
full date span (clamped at 2022-01-01), `"All"` on every select, and the
integer-truncated price bounds as the slider default. -/
def defaultCriteria (rows : List Row) : Criteria :=
  { start_date := defaultStartDate rows
    end_date := maxDateOf rows
    project := "All"
    bedrooms := "All"
    price_min := ((priceBounds rows).1 : Rat)
    price_max := ((priceBounds rows).2 : Rat)
    market_segment := "All" }

/-- The derived views the script renders from one filtered frame. -/
structure Views where
  timeline : Option (List MonthlyRow)
  extremes : Option (Row × Row × Rat)
  projects : Option (List ProjRow)
  monthlyAvg : Option (List (String × Option Rat))
  geo : Option (List GeoRow)
deriving DecidableEq

/-- The frames the script holds: the canonical dataset and the filtered
copy (boolean-mask selection copies, so the later `m²` reassignment
writes to `filtered`, never to `data`). -/
structure Store where
  data : List Row
  filtered : List Row
deriving DecidableEq

/-- Embeds one reactive pass of the script (lines 213-448): build the
mask, select the filtered copy, re-coerce its `m²` column, and render the
five views from it. -/
def runSession (data : List Row) (c : Criteria) : Store × Views :=
  let filtered := coerceAreas (filterRows data c)
  (⟨data, filtered⟩,
   ⟨tab1Timeline filtered, priceExtremes filtered, tab2Projects filtered,
    tab2MonthlyAvg filtered, tab3Geo filtered⟩)

/-- A well-formed raw row used by concrete instances. -/
def rawOk : RawRow :=
  { unit_id := "U1"
    project := "Alpha"
    contract_date := "03/04/2025"
    contract_amount := some "1,250,000.50"
    area_m2 := some "3,200"
    covered_area := some 120
    covered_veranda := some 15
    total_covered := some 135
    bedrooms := some "2"
    market_segment := "Residential"
    latitude := some 34
    longitude := some 32 }

/-- A raw row whose contract amount cell is empty (pandas `NaN`). -/
def rawMissingAmount : RawRow :=
  { rawOk with unit_id := "U2", contract_amount := none }

/-- A raw row whose contract amount cell does not parse as a number. -/
def rawBadAmount : RawRow :=
  { rawOk with unit_id := "U3", contract_amount := some "abc" }

/-- The canonical row `load_data` produces for `rawMissingAmount`. -/
def rowOfMissingAmount : Row :=
  { unit_id := "U2"
    project := "Alpha"
    contract_date := ⟨2025, 4, 3⟩
    contract_amount := none
    area_m2 := some 3200
    covered_area := 120
    covered_veranda := 15
    total_covered := 135
    bedrooms := some "2"
    market_segment := "Residential"
    latitude := some 34
    longitude := some 32
    year_month := "2025-04" }

/-- Claim C1: every raw `contract_date` cell is parsed day-first — the
first slash-component is the day and the second the month whenever that
reading is a valid calendar date — and the loader derives `year_month`
from that day-first-parsed date. -/
theorem c1_dayfirst_parse :
    (∀ (s : String) (ds ms ys : List Char) (a b y : Nat),
      splitOnChar '/' s.data = [ds, ms, ys] →
      parseNatChars ds = some a → parseNatChars ms = some b → parseNatChars ys = some y →
      1 ≤ b → b ≤ 12 → 1 ≤ a → a ≤ 31 →
      parseDateDayFirst s = some ⟨y, b, a⟩) ∧
    (∀ (rr : RawRow) (row : Row), loadRow rr = .ok row →
      parseDateDayFirst rr.contract_date = some row.contract_date ∧
      row.year_month = yearMonth row.contract_date) := by
  constructor
  · intro s ds ms ys a b y hsplit hds hms hys hb1 hb2 ha1 ha2
    unfold parseDateDayFirst
    rw [hsplit]
    simp only [hds, hms, hys]
    rw [if_pos ⟨hb1, hb2, ha1, ha2⟩]
  · intro rr row h
    unfold loadRow at h
    cases hd : parseDateDayFirst rr.contract_date with
    | none => rw [hd] at h; simp at h
    | some d =>
      rw [hd] at h
      cases hc : convertAmountCell rr.contract_amount with
      | error e => rw [hc] at h; simp at h
      | ok amt =>
        rw [hc] at h
        simp only [Except.ok.injEq] at h
        subst h
        exact ⟨rfl, rfl⟩

/-- Witness for C1 at the spec's example: `"03/04/2025"` is 3 April 2025
(month 4, day 3), not 4 March, and its month key is `"2025-04"`. -/
theorem c1_dayfirst_parse_witness :
    parseDateDayFirst "03/04/2025" = some ⟨2025, 4, 3⟩ ∧
    yearMonth ⟨2025, 4, 3⟩ = "2025-04" :=
  ⟨c1_dayfirst_parse.1 "03/04/2025" "03".data "04".data "2025".data 3 4 2025 (by decide)
      (by decide) (by decide) (by decide) (by decide) (by decide) (by decide) (by decide),
   by decide⟩

/-- Counterexample to claim C3 as stated: in a table whose
`contract_amount` column holds a string cell (so the column has object
dtype), a *missing* cell loads successfully — the `NaN` passes through
`.str.replace` and `astype(float)` untouched — so a missing amount is
not a hard load error. -/
theorem c3_missing_amount_loads :
    rawMissingAmount.contract_amount = none ∧
    rawMissingAmount ∈ [rawOk, rawMissingAmount] ∧
    (loadData [rawOk, rawMissingAmount]).isOk = true := by
  refine ⟨rfl, by decide, by decide⟩

/-- A row whose amount cell holds an unparseable string makes `loadRow`
fail. -/
theorem loadRow_error_of_bad_amount (rr : RawRow) (s : String)
    (hs : rr.contract_amount = some s)
    (hbad : parseFloatStr (stripCommas s) = none) :
    ∃ e, loadRow rr = .error e := by
  unfold loadRow
  cases hd : parseDateDayFirst rr.contract_date with
  | none => exact ⟨_, rfl⟩
  | some d =>
    have hc : convertAmountCell rr.contract_amount =
        .error "could not convert string to float" := by
      rw [hs]
      simp only [convertAmountCell, hbad]
    rw [hc]
    exact ⟨_, rfl⟩

/-- If any row of the raw input fails to clean, the row pass fails. -/
theorem loadRows_error_of_mem (raws : List RawRow) (rr : RawRow)
    (h : rr ∈ raws) (he : ∃ e, loadRow rr = .error e) :
    ∃ e, loadRows raws = .error e := by
  induction raws with
  | nil => simp at h
  | cons r rs ih =>
    rcases List.mem_cons.mp h with hr | hmem
    · obtain ⟨e, he⟩ := he
      subst hr
      exact ⟨e, by unfold loadRows; rw [he]⟩
    · obtain ⟨e2, he2⟩ := ih hmem
      cases hl : loadRow r with
      | error e => exact ⟨e, by unfold loadRows; rw [hl]⟩
      | ok row => exact ⟨e2, by unfold loadRows; rw [hl, he2]⟩

/-- Claim C3 amended: an *unparseable* `contract_amount` string (after
stripping separators) aborts the whole load with a hard error; a column
of *only* missing cells also aborts, because the `.str` accessor itself
fails on the all-`NaN` `float64` column; but a missing cell in a column
that also holds a string cell does not abort — it loads as a missing
value (`NaN`) and is never silently defaulted to a number. -/
theorem c3_amount_error_policy :
    (∀ (raws : List RawRow) (rr : RawRow), rr ∈ raws →
      (∃ s, rr.contract_amount = some s ∧ parseFloatStr (stripCommas s) = none) →
      ∃ e, loadData raws = .error e) ∧
    (∀ raws : List RawRow, raws ≠ [] → (∀ rr ∈ raws, rr.contract_amount = none) →
      ∃ e, loadData raws = .error e) ∧
    (∀ (rr : RawRow) (row : Row), loadRow rr = .ok row →
      rr.contract_amount = none → row.contract_amount = none) := by
  refine ⟨?_, ?_, ?_⟩
  · intro raws rr hmem ⟨s, hs, hbad⟩
    have hguard : ¬(raws ≠ [] ∧ ∀ x ∈ raws, x.contract_amount = none) := by
      rintro ⟨-, hall⟩
      rw [hall rr hmem] at hs
      exact Option.noConfusion hs
    unfold loadData
    rw [if_neg hguard]
    exact loadRows_error_of_mem raws rr hmem (loadRow_error_of_bad_amount rr s hs hbad)
  · intro raws hne hall
    unfold loadData
    rw [if_pos ⟨hne, hall⟩]
    exact ⟨_, rfl⟩
  · intro rr row h hm
    unfold loadRow at h
    cases hd : parseDateDayFirst rr.contract_date with
    | none => rw [hd] at h; simp at h
    | some d =>
      rw [hd, hm] at h
      simp only [convertAmountCell, Except.ok.injEq] at h
      subst h
      rfl

/-- Witness for the amended C3: a concrete unparseable amount cell makes
the load of the whole table error, a concrete table whose only amount
cell is missing errors on the `.str` accessor, and the concrete
missing-amount row cleans to a missing (not defaulted) amount. -/
theorem c3_amount_error_policy_witness :
    (∃ e, loadData [rawBadAmount] = .error e) ∧
    (∃ e, loadData [rawMissingAmount] = .error e) ∧
    rowOfMissingAmount.contract_amount = none :=
  ⟨c3_amount_error_policy.1 [rawBadAmount] rawBadAmount (by simp)
      ⟨"abc", rfl, by decide⟩,
   c3_amount_error_policy.2.1 [rawMissingAmount] (by simp) (by decide),
   c3_amount_error_policy.2.2 rawMissingAmount rowOfMissingAmount rfl rfl⟩

/-- Claim C4: every aggregation view — monthly timeline, price-per-area
extremes, per-project rollup, monthly average price-per-area, geographic
rollup — returns its `none` (no-data) sentinel on an empty filtered
subset; the view functions are total, so no exception is possible. -/
theorem c4_empty_sentinels :
    tab1Timeline [] = none ∧ priceExtremes [] = none ∧ tab2Projects [] = none ∧
    tab2MonthlyAvg [] = none ∧ tab3Geo [] = none :=
  ⟨rfl, rfl, rfl, rfl, rfl⟩

/-- A valid cache only serves results `load_data` would recompute. -/
theorem cacheLookup_valid :
    ∀ (cache : List (List RawRow × Except String (List Row)))
      (raws : List RawRow) (v : Except String (List Row)),
      ValidCache cache → cacheLookup cache raws = some v → v = loadData raws := by
  intro cache
  induction cache with
  | nil => intro raws v h hv; simp [cacheLookup] at hv
  | cons e es ih =>
    intro raws v h hv
    unfold cacheLookup at hv
    by_cases hk : e.1 = raws
    · rw [if_pos hk] at hv
      injection hv with hv2
      rw [← hv2, h e (List.mem_cons_self e es), hk]
    · rw [if_neg hk] at hv
      exact ih raws v (fun x hx => h x (List.mem_cons_of_mem e hx)) hv

/-- Claim C8: the load step is deterministic — a cache whose entries were
produced by `load_data` serves exactly what a cold `load_data` run on the
same raw input returns, so loading twice (cache hit or cold) yields equal
canonical datasets. -/
theorem c8_load_roundtrip (cache : List (List RawRow × Except String (List Row)))
    (raws : List RawRow) (h : ValidCache cache) :
    loadCached cache raws = loadData raws := by
  unfold loadCached
  cases hf : cacheLookup cache raws with
  | none => rfl
  | some v => exact cacheLookup_valid cache raws v h hf

/-- Witness for C8: a concrete one-entry cache filled by `load_data`
serves the same dataset as a cold load of the same input. -/
theorem c8_load_roundtrip_witness :
    loadCached [([rawOk], loadData [rawOk])] [rawOk] = loadData [rawOk] :=
  c8_load_roundtrip [([rawOk], loadData [rawOk])] [rawOk]
    (by intro e he; rw [List.mem_singleton] at he; subst he; rfl)

/-- The rational `100.25`, written in lowest terms so that the kernel can
evaluate comparisons on it. -/
def amtLow : Rat := ⟨401, 4, by norm_num, by norm_num⟩

/-- The rational `250.5`, written in lowest terms. -/
def amtHigh : Rat := ⟨501, 2, by norm_num, by norm_num⟩

/-- Concrete dataset row whose amount `100.25` has a fractional part. -/
def exR10a : Row :=
  { unit_id := "U1"
    project := "Alpha"
    contract_date := ⟨2024, 3, 5⟩
    contract_amount := some amtLow
    area_m2 := some 50
    covered_area := 0
    covered_veranda := 0
    total_covered := 60
    bedrooms := some "2"
    market_segment := "Residential"
    latitude := none
    longitude := none
    year_month := "2024-03" }

/-- Concrete maximum-amount row with fractional amount `250.5`. -/
def exR10b : Row :=
  { exR10a with
    unit_id := "U2"
    contract_date := ⟨2024, 6, 1⟩
    contract_amount := some amtHigh
    year_month := "2024-06" }

/-- Claim C10: the slider bounds are the `int` truncations of the amount
extremes, so on a dataset whose maximum amount `250.5` has a fractional
part the exported maximum `250` is strictly below the true maximum and
the default criteria exclude the maximum-amount row — the default filter
does not return the full dataset. -/
theorem c10_truncated_price_bounds :
    priceBounds [exR10a, exR10b] = (100, 250) ∧
    (((priceBounds [exR10a, exR10b]).2 : Rat) < amtHigh) ∧
    exR10b.contract_amount = some amtHigh ∧
    filterRows [exR10a, exR10b] (defaultCriteria [exR10a, exR10b]) = [exR10a] ∧
    exR10b ∉ filterRows [exR10a, exR10b] (defaultCriteria [exR10a, exR10b]) ∧
    filterRows [exR10a, exR10b] (defaultCriteria [exR10a, exR10b]) ≠ [exR10a, exR10b] := by
  refine ⟨by decide, by decide, by decide, by decide, by decide, by decide⟩

/-- The boolean mask of lines 213-227 holds exactly when the row meets
the date window, the price window, and each non-`"All"` select. -/
theorem rowMatches_iff (c : Criteria) (r : Row) :
    rowMatches c r = true ↔
      (Date.le c.start_date r.contract_date = true ∧
       Date.le r.contract_date c.end_date = true ∧
       (∃ a, r.contract_amount = some a ∧ c.price_min ≤ a ∧ a ≤ c.price_max) ∧
       (c.project = "All" ∨ r.project = c.project) ∧
       (c.bedrooms = "All" ∨ r.bedrooms = some c.bedrooms) ∧
       (c.market_segment = "All" ∨ r.market_segment = c.market_segment)) := by
  unfold rowMatches
  cases hamt : r.contract_amount with
  | none => simp
  | some a =>
    simp only [Bool.and_eq_true, Bool.or_eq_true, beq_iff_eq, decide_eq_true_eq,
      Option.some.injEq]
    constructor
    · rintro ⟨⟨⟨⟨⟨⟨h1, h2⟩, h3⟩, h4⟩, h5⟩, h6⟩, h7⟩
      exact ⟨h1, h2, ⟨a, rfl, h3, h4⟩, h5, h6, h7⟩
    · rintro ⟨h1, h2, ⟨x, hx, h3, h4⟩, h5, h6, h7⟩
      subst hx
      exact ⟨⟨⟨⟨⟨⟨h1, h2⟩, h3⟩, h4⟩, h5⟩, h6⟩, h7⟩

/-- Claim C2: the filter evaluator returns exactly the rows of the input
(in order, as a sublist) whose contract date lies in the inclusive date
window, whose amount lies in the inclusive price window, and which match
each of the project, bedrooms and market-segment criteria exactly — a
criterion equal to the sentinel `"All"` imposing no constraint. -/
theorem c2_filter_semantics :
    ∀ (data : List Row) (c : Criteria) (r : Row),
      (filterRows data c).Sublist data ∧
      (r ∈ filterRows data c ↔ r ∈ data ∧
        (Date.le c.start_date r.contract_date = true ∧
         Date.le r.contract_date c.end_date = true ∧
         (∃ a, r.contract_amount = some a ∧ c.price_min ≤ a ∧ a ≤ c.price_max) ∧
         (c.project = "All" ∨ r.project = c.project) ∧
         (c.bedrooms = "All" ∨ r.bedrooms = some c.bedrooms) ∧
         (c.market_segment = "All" ∨ r.market_segment = c.market_segment))) := by
  intro data c r
  refine ⟨List.filter_sublist data, ?_⟩
  rw [filterRows, List.mem_filter, rowMatches_iff]

/-- Claim C9: a reactive pass — mask, filtered copy, defensive `m²`
re-coercion, and every view — leaves the canonical dataset exactly as
loaded, and the filtered frame it derives only holds rows of the
canonical dataset. -/
theorem c9_no_mutation :
    ∀ (data : List Row) (c : Criteria),
      (runSession data c).1.data = data ∧
      (∀ r ∈ (runSession data c).1.filtered, r ∈ data) := by
  intro data c
  refine ⟨rfl, ?_⟩
  intro r hr
  have hco : coerceAreas (filterRows data c) = filterRows data c := by
    have hfun : (fun (r : Row) => { r with area_m2 := r.area_m2 }) = id := rfl
    rw [coerceAreas, hfun, List.map_id]
  have hr2 : r ∈ coerceAreas (filterRows data c) := hr
  rw [hco] at hr2
  exact List.mem_of_mem_filter hr2

/-- A simple loaded row with integer amount, used by concrete instances. -/
def mkExRow (u proj : String) (d : Date) (amt : Option Rat) (area : Option Rat)
    (tc : Rat) (ym : String) : Row :=
  { unit_id := u
    project := proj
    contract_date := d
    contract_amount := amt
    area_m2 := area
    covered_area := 0
    covered_veranda := 0
    total_covered := tc
    bedrooms := some "2"
    market_segment := "Residential"
    latitude := none
    longitude := none
    year_month := ym }

/-- Concrete one-row dataset for the frame-property witness. -/
def exC9row : Row := mkExRow "U9" "Alpha" ⟨2024, 1, 10⟩ (some 500) (some 80) 60 "2024-01"

/-- Witness for C9 at a concrete session: the canonical dataset survives
the pass unchanged and the filtered row is a row of the dataset. -/
theorem c9_no_mutation_witness :
    (runSession [exC9row] (defaultCriteria [exC9row])).1.data = [exC9row] ∧
    exC9row ∈ [exC9row] :=
  ⟨(c9_no_mutation [exC9row] (defaultCriteria [exC9row])).1,
   (c9_no_mutation [exC9row] (defaultCriteria [exC9row])).2 exC9row (by decide)⟩

/-- The lexicographic comparison is total. -/
theorem charListLe_total : ∀ as bs : List Char,
    charListLe as bs = true ∨ charListLe bs as = true := by
  intro as
  induction as with
  | nil => intro bs; left; rfl
  | cons a as ih =>
    intro bs
    cases bs with
    | nil => right; rfl
    | cons b bs2 =>
      rw [charListLe, charListLe]
      by_cases hab : a.toNat < b.toNat
      · left; rw [if_pos hab]
      · by_cases hba : b.toNat < a.toNat
        · right; rw [if_pos hba]
        · rw [if_neg hab, if_neg hba, if_neg hba, if_neg hab]
          exact ih bs2

/-- The lexicographic comparison is transitive. -/
theorem charListLe_trans : ∀ as bs cs : List Char,
    charListLe as bs = true → charListLe bs cs = true → charListLe as cs = true := by
  intro as
  induction as with
  | nil => intro bs cs h1 h2; rfl
  | cons a as ih =>
    intro bs cs h1 h2
    cases bs with
    | nil => simp [charListLe] at h1
    | cons b bs2 =>
      cases cs with
      | nil => simp [charListLe] at h2
      | cons c cs2 =>
        rw [charListLe] at h1 h2 ⊢
        by_cases hab : a.toNat < b.toNat
        · by_cases hbc : b.toNat < c.toNat
          · rw [if_pos (lt_trans hab hbc)]
          · rw [if_neg hbc] at h2
            by_cases hcb : c.toNat < b.toNat
            · rw [if_pos hcb] at h2; exact absurd h2 (by simp)
            · have hbc2 : b.toNat = c.toNat :=
                le_antisymm (not_lt.mp hcb) (not_lt.mp hbc)
              rw [if_pos (hbc2 ▸ hab)]
        · rw [if_neg hab] at h1
          by_cases hba : b.toNat < a.toNat
          · rw [if_pos hba] at h1; exact absurd h1 (by simp)
          · rw [if_neg hba] at h1
            have hab2 : a.toNat = b.toNat :=
              le_antisymm (not_lt.mp hba) (not_lt.mp hab)
            by_cases hbc : b.toNat < c.toNat
            · rw [if_pos (hab2 ▸ hbc : a.toNat < c.toNat)]
            · rw [if_neg hbc] at h2
              by_cases hcb : c.toNat < b.toNat
              · rw [if_pos hcb] at h2; exact absurd h2 (by simp)
              · rw [if_neg hcb] at h2
                rw [if_neg (hab2 ▸ hbc : ¬a.toNat < c.toNat),
                  if_neg (hab2 ▸ hcb : ¬c.toNat < a.toNat)]
                exact ih bs2 cs2 h1 h2

/-- The string-key order used by the groupby views is total. -/
theorem strLeTotal : IsTotal String (fun a b => strLe a b = true) :=
  ⟨fun a b => charListLe_total a.data b.data⟩

/-- The string-key order used by the groupby views is transitive. -/
theorem strLeTrans : IsTrans String (fun a b => strLe a b = true) :=
  ⟨fun a b c => charListLe_trans a.data b.data c.data⟩

/-- The month column of the timeline is exactly the sorted key list. -/
theorem monthlySales_months (rows : List Row) :
    ∀ keys : List String,
      (keys.map (fun ym =>
        let g := rows.filter (fun r => r.year_month == ym)
        (⟨ym, sumAmounts g, g.length⟩ : MonthlyRow))).map (·.month) = keys := by
  intro keys
  induction keys with
  | nil => rfl
  | cons k ks ih => simp only [List.map_cons, ih]

/-- First example row of the spec's monthly-rollup test vector. -/
def exM1 : Row := mkExRow "U1" "Alpha" ⟨2024, 1, 10⟩ (some 100) (some 80) 60 "2024-01"

/-- Second example row of the spec's monthly-rollup test vector. -/
def exM2 : Row := mkExRow "U2" "Alpha" ⟨2024, 1, 20⟩ (some 200) (some 90) 70 "2024-01"

/-- Third example row of the spec's monthly-rollup test vector. -/
def exM3 : Row := mkExRow "U3" "Beta" ⟨2024, 2, 5⟩ (some 50) (some 100) 80 "2024-02"

/-- The spec's monthly-rollup test vector: months
`["2024-01","2024-01","2024-02"]` with amounts `[100, 200, 50]`. -/
def exMonthly : List Row := [exM1, exM2, exM3]

/-- Claim C5: the monthly timeline groups rows by `year_month`, returns
one `(month, total_amount, unit_count)` row per distinct month — total
the sum of the group's amounts, count its size — sorted ascending by
month; on the spec's test vector it returns
`[("2024-01", 300, 2), ("2024-02", 50, 1)]`. -/
theorem c5_monthly_timeline :
    ∀ rows : List Row,
      List.Sorted (fun a b => strLe a b = true) ((monthlySales rows).map (·.month)) ∧
      ((monthlySales rows).map (·.month)).Nodup ∧
      (∀ ym, ym ∈ (monthlySales rows).map (·.month) ↔ ym ∈ rows.map (·.year_month)) ∧
      (∀ e ∈ monthlySales rows,
        e.total = sumAmounts (rows.filter (fun r => r.year_month == e.month)) ∧
        e.count = (rows.filter (fun r => r.year_month == e.month)).length) ∧
      monthlySales exMonthly = [⟨"2024-01", 300, 2⟩, ⟨"2024-02", 50, 1⟩] := by
  intro rows
  haveI := strLeTotal
  haveI := strLeTrans
  have hmap : (monthlySales rows).map (·.month) =
      List.insertionSort (fun a b => strLe a b = true) ((rows.map (·.year_month)).dedup) :=
    monthlySales_months rows _
  refine ⟨?_, ?_, ?_, ?_, ?_⟩
  · rw [hmap]
    exact List.sorted_insertionSort _ _
  · rw [hmap]
    exact ((List.perm_insertionSort _ _).nodup_iff).mpr ((rows.map (·.year_month)).nodup_dedup)
  · intro ym
    rw [hmap, List.mem_insertionSort, List.mem_dedup]
  · intro e he
    obtain ⟨ym, hym, rfl⟩ := List.mem_map.mp he
    exact ⟨rfl, rfl⟩
  · have hkeys : List.insertionSort (fun a b => strLe a b = true)
        ((exMonthly.map (·.year_month)).dedup) = ["2024-01", "2024-02"] := by decide
    have hg1 : exMonthly.filter (fun r => r.year_month == "2024-01") = [exM1, exM2] := by decide
    have hg2 : exMonthly.filter (fun r => r.year_month == "2024-02") = [exM3] := by decide
    have e1 : sumAmounts (exMonthly.filter (fun r => r.year_month == "2024-01")) = 300 := by
      rw [hg1]
      norm_num [sumAmounts, exM1, exM2, mkExRow, List.filterMap]
    have e2 : sumAmounts (exMonthly.filter (fun r => r.year_month == "2024-02")) = 50 := by
      rw [hg2]
      norm_num [sumAmounts, exM3, mkExRow, List.filterMap]
    rw [monthlySales, hkeys]
    simp only [List.map_cons, List.map_nil]
    rw [e1, e2, hg1, hg2]
    rfl

/-- Witness for C5: the theorem applied to the test vector gives the
`"2024-01"` entry's total and count as the group sum `300` over its two
rows. -/
theorem c5_monthly_timeline_witness :
    (⟨"2024-01", 300, 2⟩ : MonthlyRow).total =
      sumAmounts (exMonthly.filter (fun r => r.year_month == "2024-01")) ∧
    (⟨"2024-01", 300, 2⟩ : MonthlyRow).count =
      (exMonthly.filter (fun r => r.year_month == "2024-01")).length := by
  refine (c5_monthly_timeline exMonthly).2.2.2.1 ⟨"2024-01", 300, 2⟩ ?_
  rw [(c5_monthly_timeline exMonthly).2.2.2.2]
  exact List.mem_cons_self _ _

/-- The project column of the rollup table (before the descending
re-sort) is exactly the key list. -/
theorem projectSales_projects (rows : List Row) :
    ∀ keys : List String,
      (keys.map (fun p => mkProjRow p (rows.filter (fun r => r.project == p)))).map
        (·.project) = keys := by
  intro keys
  induction keys with
  | nil => rfl
  | cons k ks ih => simp only [List.map_cons, ih]; rfl

/-- Claim C6: the per-project rollup keeps every project of the input
(none dropped), sorts its rows descending by total sales, computes each
row's mean covered size, emits `none` ("no value") for `price_per_area`
exactly when the group's mean `total_covered` is zero, and otherwise the
mean amount divided by the mean size. -/
theorem c6_project_rollup :
    ∀ rows : List Row,
      (projectSales rows).Pairwise (fun a b => b.totalSales ≤ a.totalSales) ∧
      (∀ p, p ∈ (projectSales rows).map (·.project) ↔ p ∈ rows.map (·.project)) ∧
      (∀ e ∈ projectSales rows,
        e.avgSize = ((rows.filter (fun r => r.project == e.project)).map (·.total_covered)).sum /
          (((rows.filter (fun r => r.project == e.project)).length : Rat)) ∧
        (e.avgSize = 0 → e.pricePerArea = none) ∧
        (e.avgSize ≠ 0 → e.pricePerArea =
          (meanOpt ((rows.filter (fun r => r.project == e.project)).map (·.contract_amount))).map
            (fun x => x / e.avgSize))) := by
  intro rows
  haveI : IsTotal ProjRow (fun a b => b.totalSales ≤ a.totalSales) :=
    ⟨fun a b => le_total b.totalSales a.totalSales⟩
  haveI : IsTrans ProjRow (fun a b => b.totalSales ≤ a.totalSales) :=
    ⟨fun a b c hab hbc => le_trans hbc hab⟩
  refine ⟨?_, ?_, ?_⟩
  · exact List.sorted_insertionSort _ _
  · intro p
    have hperm : List.Perm ((projectSales rows).map (·.project))
        (((List.insertionSort (fun a b => strLe a b = true) ((rows.map (·.project)).dedup)).map
          (fun q => mkProjRow q (rows.filter (fun r => r.project == q)))).map (·.project)) :=
      List.Perm.map _ (List.perm_insertionSort _ _)
    rw [hperm.mem_iff, projectSales_projects rows _, List.mem_insertionSort, List.mem_dedup]
  · intro e he
    have he2 : e ∈ (List.insertionSort (fun a b => strLe a b = true)
        ((rows.map (·.project)).dedup)).map
          (fun q => mkProjRow q (rows.filter (fun r => r.project == q))) :=
      (List.mem_insertionSort _).mp he
    obtain ⟨p, hp, rfl⟩ := List.mem_map.mp he2
    refine ⟨rfl, ?_, ?_⟩
    · intro h0
      simp only [mkProjRow] at h0 ⊢
      rw [if_pos h0]
    · intro h0
      simp only [mkProjRow] at h0 ⊢
      rw [if_neg h0]

/-- Example row for project "Alpha" with nonzero covered size. -/
def exP1 : Row := mkExRow "U1" "Alpha" ⟨2024, 1, 10⟩ (some 100) (some 80) 50 "2024-01"

/-- Example row for project "Zed" whose covered size is zero. -/
def exP2 : Row := mkExRow "U2" "Zed" ⟨2024, 1, 20⟩ (some 200) (some 90) 0 "2024-01"

/-- Two-project dataset where "Zed" has mean covered size zero. -/
def exProj : List Row := [exP1, exP2]

/-- Witness for C6: the "Zed" group's mean covered size is zero, so its
rollup row's derived price-per-area is the "no value" sentinel. -/
theorem c6_project_rollup_witness :
    (mkProjRow "Zed" (exProj.filter (fun r => r.project == "Zed"))).pricePerArea = none := by
  have hmem : mkProjRow "Zed" (exProj.filter (fun r => r.project == "Zed")) ∈
      projectSales exProj :=
    (List.mem_insertionSort _).mpr (List.mem_map.mpr ⟨"Zed", by decide, rfl⟩)
  have havg : (mkProjRow "Zed" (exProj.filter (fun r => r.project == "Zed"))).avgSize = 0 := by
    rw [show exProj.filter (fun r => r.project == "Zed") = [exP2] from by decide]
    norm_num [mkProjRow, exP2, mkExRow]
  exact ((c6_project_rollup exProj).2.2 _ hmem).2.1 havg

/-- The `idxmax` fold returns one of the candidate rows. -/
theorem maxAreaRow_mem : ∀ (vs : List Row) (v : Row), maxAreaRow v vs ∈ v :: vs := by
  intro vs
  induction vs with
  | nil => intro v; simp [maxAreaRow]
  | cons x xs ih =>
    intro v
    rw [maxAreaRow]
    rcases List.mem_cons.mp (ih (if v.area_m2.getD 0 < x.area_m2.getD 0 then x else v)) with
      heq | hmem
    · rw [heq]
      split_ifs with hc
      · exact List.mem_cons_of_mem _ (List.mem_cons_self _ _)
      · exact List.mem_cons_self _ _
    · exact List.mem_cons_of_mem _ (List.mem_cons_of_mem _ hmem)

/-- The `idxmax` fold dominates every candidate's area. -/
theorem maxAreaRow_ge : ∀ (vs : List Row) (v r : Row), r ∈ v :: vs →
    r.area_m2.getD 0 ≤ (maxAreaRow v vs).area_m2.getD 0 := by
  intro vs
  induction vs with
  | nil =>
    intro v r hr
    rw [List.mem_singleton] at hr
    rw [maxAreaRow, hr]
  | cons x xs ih =>
    intro v r hr
    rw [maxAreaRow]
    have hw : v.area_m2.getD 0 ≤
        (if v.area_m2.getD 0 < x.area_m2.getD 0 then x else v).area_m2.getD 0 := by
      split_ifs with hc
      · exact le_of_lt hc
      · exact le_refl _
    have hx : x.area_m2.getD 0 ≤
        (if v.area_m2.getD 0 < x.area_m2.getD 0 then x else v).area_m2.getD 0 := by
      split_ifs with hc
      · exact le_refl _
      · exact not_lt.mp hc
    rcases List.mem_cons.mp hr with heq | hmem
    · rw [heq]
      exact le_trans hw (ih _ _ (List.mem_cons_self _ _))
    · rcases List.mem_cons.mp hmem with heq2 | hmem2
      · rw [heq2]
        exact le_trans hx (ih _ _ (List.mem_cons_self _ _))
      · exact ih _ r (List.mem_cons_of_mem _ hmem2)

/-- The `idxmin` fold returns one of the candidate rows. -/
theorem minAreaRow_mem : ∀ (vs : List Row) (v : Row), minAreaRow v vs ∈ v :: vs := by
  intro vs
  induction vs with
  | nil => intro v; simp [minAreaRow]
  | cons x xs ih =>
    intro v
    rw [minAreaRow]
    rcases List.mem_cons.mp (ih (if x.area_m2.getD 0 < v.area_m2.getD 0 then x else v)) with
      heq | hmem
    · rw [heq]
      split_ifs with hc
      · exact List.mem_cons_of_mem _ (List.mem_cons_self _ _)
      · exact List.mem_cons_self _ _
    · exact List.mem_cons_of_mem _ (List.mem_cons_of_mem _ hmem)

/-- The `idxmin` fold is dominated by every candidate's area. -/
theorem minAreaRow_le : ∀ (vs : List Row) (v r : Row), r ∈ v :: vs →
    (minAreaRow v vs).area_m2.getD 0 ≤ r.area_m2.getD 0 := by
  intro vs
  induction vs with
  | nil =>
    intro v r hr
    rw [List.mem_singleton] at hr
    rw [minAreaRow, hr]
  | cons x xs ih =>
    intro v r hr
    rw [minAreaRow]
    have hw : (if x.area_m2.getD 0 < v.area_m2.getD 0 then x else v).area_m2.getD 0 ≤
        v.area_m2.getD 0 := by
      split_ifs with hc
      · exact le_of_lt hc
      · exact le_refl _
    have hx : (if x.area_m2.getD 0 < v.area_m2.getD 0 then x else v).area_m2.getD 0 ≤
        x.area_m2.getD 0 := by
      split_ifs with hc
      · exact le_refl _
      · exact not_lt.mp hc
    rcases List.mem_cons.mp hr with heq | hmem
    · rw [heq]
      exact le_trans (ih _ _ (List.mem_cons_self _ _)) hw
    · rcases List.mem_cons.mp hmem with heq2 | hmem2
      · rw [heq2]
        exact le_trans (ih _ _ (List.mem_cons_self _ _)) hx
      · exact ih _ r (List.mem_cons_of_mem _ hmem2)

/-- Claim C7: the extremes view restricts to rows with non-missing
`area_m2`; when no such row exists it returns the no-data sentinel, and
otherwise it returns a row attaining the maximum area, a row attaining
the minimum area, and the mean of the non-missing areas only (missing
cells excluded, never counted as zero). -/
theorem c7_area_extremes :
    ∀ rows : List Row,
      (validArea rows = [] → priceExtremes rows = none) ∧
      (validArea rows ≠ [] →
        ∃ hi lo, priceExtremes rows =
            some (hi, lo,
              ((validArea rows).filterMap (·.area_m2)).sum / ((validArea rows).length : Rat)) ∧
          hi ∈ validArea rows ∧ lo ∈ validArea rows ∧
          (∀ r ∈ validArea rows,
            r.area_m2.getD 0 ≤ hi.area_m2.getD 0 ∧
            lo.area_m2.getD 0 ≤ r.area_m2.getD 0)) := by
  intro rows
  constructor
  · intro hv
    unfold priceExtremes
    rw [hv]
    simp
  · intro hv
    have hne : ¬(rows.isEmpty = true) := by
      intro h0
      rw [List.isEmpty_iff] at h0
      rw [h0] at hv
      exact hv rfl
    unfold priceExtremes
    rw [if_neg hne]
    cases hva : validArea rows with
    | nil => exact absurd hva hv
    | cons v vs =>
      refine ⟨maxAreaRow v vs, minAreaRow v vs, rfl, maxAreaRow_mem vs v, minAreaRow_mem vs v, ?_⟩
      intro r hr
      exact ⟨maxAreaRow_ge vs v r hr, minAreaRow_le vs v r hr⟩

/-- Row with area 100 for the mean-exclusion test vector. -/
def exA1 : Row := mkExRow "U1" "Alpha" ⟨2024, 1, 1⟩ (some 1000) (some 100) 50 "2024-01"

/-- Row with missing area for the mean-exclusion test vector. -/
def exA2 : Row := mkExRow "U2" "Alpha" ⟨2024, 1, 2⟩ (some 1000) none 50 "2024-01"

/-- Row with area 300 for the mean-exclusion test vector. -/
def exA3 : Row := mkExRow "U3" "Alpha" ⟨2024, 1, 3⟩ (some 1000) (some 300) 50 "2024-01"

/-- The spec's area test vector `[100, missing, 300]`. -/
def exArea : List Row := [exA1, exA2, exA3]

/-- Witness for C7: on `[100, missing, 300]` the view returns a mean of
`200`, the missing cell excluded rather than counted as zero. -/
theorem c7_area_extremes_witness :
    ∃ hi lo, priceExtremes exArea = some (hi, lo, 200) := by
  obtain ⟨hi, lo, heq, -, -, -⟩ := (c7_area_extremes exArea).2 (by decide)
  have hmean : ((validArea exArea).filterMap (·.area_m2)).sum /
      ((validArea exArea).length : Rat) = 200 := by
    rw [show validArea exArea = [exA1, exA3] from by decide]
    norm_num [exA1, exA3, mkExRow, List.filterMap]
  rw [hmean] at heq
  exact ⟨hi, lo, heq⟩

end VillaDashboard
